import Mathlib

/-!
Verification of `pgn_reading.py` from the chess-prediction repository.

The script converts a PGN file into a table: for each parsed game it renders
the first at-most-40 mainline moves to standard algebraic strings against an
evolving board, appends the game's "Result" header, collects the rows into a
pandas DataFrame with the fixed 41-column header, prints it and writes it to
`data.csv` without an index column.

The chess library (python-chess) and the tabular library (pandas) are external
collaborators.  The chess library is abstracted as a structure `ChessLib`
carrying a board type, the starting board, SAN rendering and move application;
the script's loop is embedded over any such library.  The relevant pandas
behaviour is embedded concretely: constructing a DataFrame from a list of
lists pads short rows with NaN up to the maximal row length and fails when
that maximal length differs from the number of column names, and `to_csv`
renders NaN cells as empty fields.
-/

set_option maxRecDepth 8000

namespace ChessPrediction

/-- Abstraction of the external chess library: a board type, the starting
board (`game.board()`), SAN rendering (`board.san(move)`) and move
application (`board.push(move)`). -/
structure ChessLib where
  Board : Type
  Move : Type
  init : Board
  san : Board → Move → String
  push : Board → Move → Board

/-- A parsed game record as the script uses it: the header tag pairs and the
mainline move list (`game.mainline_moves()`). -/
structure PGNGame (Move : Type) where
  headers : List (String × String)
  mainline : List Move

/-- Dictionary-style lookup in the header mapping; `headers["Result"]`
raises a missing-key error exactly when this returns `none`. -/
def lookupHeader (hs : List (String × String)) (k : String) : Option String :=
  (hs.find? (fun p => p.1 == k)).map Prod.snd

/-- The script's move loop (lines 13-20): append `board.san(move)` to the
accumulator, push the move, and break as soon as the accumulator reaches
length 40. -/
def sanLoop (L : ChessLib) : L.Board → List String → List L.Move → List String
  | _, acc, [] => acc
  | b, acc, m :: ms =>
    let acc2 := acc ++ [L.san b m]
    if acc2.length = 40 then acc2
    else sanLoop L (L.push b m) acc2 ms

/-- Reference rendering: the SAN strings of a whole move list, each rendered
against the board obtained by pushing its predecessors. -/
def sanAll (L : ChessLib) : L.Board → List L.Move → List String
  | _, [] => []
  | b, m :: ms => L.san b m :: sanAll L (L.push b m) ms

/-- Reference rendering truncated by fuel: the SAN strings of the first `n`
moves of the list. -/
def sanFirst (L : ChessLib) : L.Board → Nat → List L.Move → List String
  | _, _, [] => []
  | _, 0, _ :: _ => []
  | b, n + 1, m :: ms => L.san b m :: sanFirst L (L.push b m) n ms

/-- One iteration of the outer loop (lines 13-24): render the mainline,
look up the "Result" header and append it.  A missing "Result" propagates
as an error. -/
def gameRow (L : ChessLib) (g : PGNGame L.Move) : Except String (List String) :=
  match lookupHeader g.headers "Result" with
  | some r => .ok (sanLoop L L.init [] g.mainline ++ [r])
  | none => .error "KeyError: Result"

/-- Line 26: `[f"Ply {i+1}" for i in range(40)] + ["Result"]`. -/
def column_names : List String :=
  ((List.range 40).map (fun i => "Ply " ++ toString (i + 1))) ++ ["Result"]

/-- A pandas DataFrame as the script uses it: column names and rows of
cells, a `none` cell being NaN. -/
structure DataFrame where
  columns : List String
  rows : List (List (Option String))
deriving DecidableEq

/-- Maximal row length of a list of rows (pandas `lib.to_object_array`). -/
def maxRowLen (rows : List (List String)) : Nat :=
  rows.foldl (fun a r => max a r.length) 0

/-- Pad one row with NaN cells up to width `k`. -/
def padRow (k : Nat) (r : List String) : List (Option String) :=
  r.map some ++ List.replicate (k - r.length) none

/-- `pd.DataFrame(games, columns=column_names)` on a list of lists: an empty
list gives an empty frame with the given columns; otherwise short rows are
padded with NaN up to the maximal row length, which must equal the number of
column names or construction fails. -/
def mkDataFrame (rows : List (List String)) (cols : List String) : Except String DataFrame :=
  if rows.isEmpty then .ok ⟨cols, []⟩
  else
    let k := maxRowLen rows
    if k = cols.length then .ok ⟨cols, rows.map (padRow k)⟩
    else .error (toString cols.length ++ " columns passed, passed data had " ++ toString k ++ " columns")

/-- The `while True` loop of lines 8-24 over the already-parsed game
records: assemble one row per game, in order; an uncaught error while
processing any game aborts the whole run. -/
def collectRows (L : ChessLib) : List (PGNGame L.Move) → Except String (List (List String))
  | [] => .ok []
  | g :: gs =>
    match gameRow L g with
    | .error e => .error e
    | .ok row =>
      match collectRows L gs with
      | .error e => .error e
      | .ok rows => .ok (row :: rows)

/-- The function `pgn_to_dataframe` (lines 4-28), over the already-parsed
game records: assemble one row per game, in order, aborting on the first
error, then build the DataFrame with the fixed column names. -/
def pgn_to_dataframe (L : ChessLib) (games : List (PGNGame L.Move)) : Except String DataFrame :=
  match collectRows L games with
  | .error e => .error e
  | .ok rows => mkDataFrame rows column_names

/-- `to_csv` cell rendering: NaN becomes the empty field. -/
def renderCell : Option String → String
  | some s => s
  | none => ""

/-- Comma-join of the fields of one CSV line. -/
def joinComma : List String → String
  | [] => ""
  | [s] => s
  | s :: ss => s ++ "," ++ joinComma ss

/-- `df.to_csv('data.csv', index=False)`: the header line followed by one
line per row, no index column. -/
def csvLines (df : DataFrame) : List String :=
  joinComma df.columns :: df.rows.map (fun r => joinComma (r.map renderCell))

/-- The whole script on the parsed games of the input: on success the file
`data.csv` is written with the CSV lines, on any uncaught error nothing is
written. -/
def writtenFile (L : ChessLib) (games : List (PGNGame L.Move)) :
    Option (String × List String) :=
  match pgn_to_dataframe L games with
  | .ok df => some ("data.csv", csvLines df)
  | .error _ => none

/-- Replaying a rendered SAN sequence: parse each string against the current
board and apply the resulting move. -/
def replaySan (L : ChessLib) (parseSan : L.Board → String → Option L.Move) :
    L.Board → List String → Option (List L.Move)
  | _, [] => some []
  | b, s :: ss =>
    match parseSan b s with
    | none => none
    | some m => (replaySan L parseSan (L.push b m) ss).map (m :: ·)

/-- A move list is legal along a board when each move is legal on the board
obtained by pushing its predecessors. -/
def lineLegal (L : ChessLib) (legal : L.Board → L.Move → Prop) :
    L.Board → List L.Move → Prop
  | _, [] => True
  | b, m :: ms => legal b m ∧ lineLegal L legal (L.push b m) ms

/-- A degenerate chess library used for concrete evaluation: moves are
strings that render as themselves. -/
def StrLib : ChessLib where
  Board := Unit
  Move := String
  init := ()
  san _ m := m
  push _ _ := ()

/-! ### Lemmas about the move-rendering loop -/

theorem sanFirst_zero (L : ChessLib) (b : L.Board) (ms : List L.Move) :
    sanFirst L b 0 ms = [] := by
  cases ms <;> rfl

theorem sanFirst_eq_take (L : ChessLib) (ms : List L.Move) :
    ∀ (b : L.Board) (n : Nat), sanFirst L b n ms = sanAll L b (ms.take n) := by
  induction ms with
  | nil => intro b n; cases n <;> rfl
  | cons m ms ih =>
    intro b n
    cases n with
    | zero => rfl
    | succ k => simp [sanFirst, sanAll, ih]

theorem sanAll_length (L : ChessLib) (ms : List L.Move) :
    ∀ b : L.Board, (sanAll L b ms).length = ms.length := by
  induction ms with
  | nil => intro b; rfl
  | cons m ms ih => intro b; simp [sanAll, ih]

theorem sanLoop_eq (L : ChessLib) (ms : List L.Move) :
    ∀ (b : L.Board) (acc : List String), acc.length < 40 →
      sanLoop L b acc ms = acc ++ sanFirst L b (40 - acc.length) ms := by
  induction ms with
  | nil => intro b acc _; simp [sanLoop, sanFirst]
  | cons m ms ih =>
    intro b acc h
    by_cases hc : acc.length + 1 = 40
    · have hlen : (acc ++ [L.san b m]).length = 40 := by
        simpa using hc
      have h1 : 40 - acc.length = 1 := by omega
      simp only [sanLoop, hlen, if_pos rfl, h1, sanFirst, sanFirst_zero]
      simp
    · have hlen : ¬ (acc ++ [L.san b m]).length = 40 := by
        simpa using hc
      have hlt : (acc ++ [L.san b m]).length < 40 := by
        simp only [List.length_append, List.length_singleton]
        omega
      have hstep : 40 - acc.length = (40 - (acc ++ [L.san b m]).length) + 1 := by
        simp only [List.length_append, List.length_singleton]
        omega
      simp only [sanLoop, if_neg hlen, ih _ _ hlt, hstep, sanFirst]
      simp

/-- The move loop on an empty accumulator renders exactly the SAN strings of
the first 40 moves of the mainline. -/
theorem sanLoop_nil (L : ChessLib) (b : L.Board) (ms : List L.Move) :
    sanLoop L b [] ms = sanAll L b (ms.take 40) := by
  have h := sanLoop_eq L ms b [] (by simp)
  simpa [sanFirst_eq_take] using h

theorem gameRow_eq (L : ChessLib) (g : PGNGame L.Move) (r : String)
    (h : lookupHeader g.headers "Result" = some r) :
    gameRow L g = .ok (sanAll L L.init (g.mainline.take 40) ++ [r]) := by
  simp [gameRow, h, sanLoop_nil]

/-! ### Concrete inputs for evaluation -/

/-- A one-game input: three half-moves `e4 e5 Nf3`, result `1-0`. -/
def gameE4 : PGNGame String :=
  ⟨[("Event", "Casual"), ("Result", "1-0")], ["e4", "e5", "Nf3"]⟩

/-- A game with 41 half-moves. -/
def gameLong : PGNGame String :=
  ⟨[("Result", "1-0")], List.replicate 41 "a"⟩

/-- A game record without a "Result" header. -/
def gameNoResult : PGNGame String :=
  ⟨[("Event", "Casual")], ["e4"]⟩

/-- A game with an empty mainline. -/
def gameEmptyMoves : PGNGame String :=
  ⟨[("Result", "1/2-1/2")], []⟩

/-! ### Lemmas about row collection and DataFrame construction -/

theorem collectRows_ok_length (L : ChessLib) :
    ∀ (gs : List (PGNGame L.Move)) (rs : List (List String)),
      collectRows L gs = .ok rs → rs.length = gs.length := by
  intro gs
  induction gs with
  | nil =>
    intro rs h
    simp only [collectRows, Except.ok.injEq] at h
    simp [← h]
  | cons g gs ih =>
    intro rs h
    simp only [collectRows] at h
    cases hg : gameRow L g with
    | error e => rw [hg] at h; cases h
    | ok row =>
      rw [hg] at h
      cases hrec : collectRows L gs with
      | error e => rw [hrec] at h; cases h
      | ok rows =>
        rw [hrec] at h
        cases h
        simp [ih rows hrec]

theorem collectRows_error_of_mem (L : ChessLib) (g : PGNGame L.Move)
    (hres : lookupHeader g.headers "Result" = none) :
    ∀ gs : List (PGNGame L.Move), g ∈ gs → ∃ e, collectRows L gs = .error e := by
  intro gs
  induction gs with
  | nil => intro h; cases h
  | cons g0 gs ih =>
    intro h
    rcases List.mem_cons.mp h with h0 | hmem
    · subst h0
      refine ⟨"KeyError: Result", ?_⟩
      simp [collectRows, gameRow, hres]
    · simp only [collectRows]
      cases hg : gameRow L g0 with
      | error e => exact ⟨e, rfl⟩
      | ok row =>
        rcases ih hmem with ⟨e, he⟩
        rw [he]
        exact ⟨e, rfl⟩

theorem mkDataFrame_ok (rows : List (List String)) (cols : List String) (df : DataFrame)
    (h : mkDataFrame rows cols = .ok df) :
    df.columns = cols ∧ df.rows = rows.map (padRow (maxRowLen rows)) := by
  by_cases hr : rows.isEmpty
  · simp only [mkDataFrame, hr, if_pos] at h
    cases h
    constructor
    · rfl
    · simp [List.isEmpty_iff.mp hr]
  · simp only [mkDataFrame, hr, if_neg, Bool.false_eq_true, not_false_iff] at h
    by_cases hk : maxRowLen rows = cols.length
    · rw [if_pos hk] at h
      cases h
      exact ⟨rfl, rfl⟩
    · rw [if_neg hk] at h
      cases h

theorem mkDataFrame_ok_length (rows : List (List String)) (cols : List String) (df : DataFrame)
    (h : mkDataFrame rows cols = .ok df) : df.rows.length = rows.length := by
  rw [(mkDataFrame_ok rows cols df h).2, List.length_map]

/-! ### Claims -/

/-- C1: for every parsed game whose mainline has more than 40 half-moves,
the assembled row is exactly the SAN strings of the first 40 moves, in
order, followed by the result tag, giving a row of length 41. -/
theorem C1_long_game_row (L : ChessLib) (g : PGNGame L.Move) (r : String)
    (hres : lookupHeader g.headers "Result" = some r)
    (hlen : 40 < g.mainline.length) :
    gameRow L g = .ok (sanAll L L.init (g.mainline.take 40) ++ [r]) ∧
      (sanAll L L.init (g.mainline.take 40) ++ [r]).length = 41 := by
  refine ⟨gameRow_eq L g r hres, ?_⟩
  simp only [List.length_append, sanAll_length, List.length_take, List.length_singleton]
  omega

/-- Witness for C1 on a concrete 41-move game. -/
theorem C1_long_game_row_witness :
    gameRow StrLib gameLong =
        .ok (sanAll StrLib StrLib.init (gameLong.mainline.take 40) ++ ["1-0"]) ∧
      (sanAll StrLib StrLib.init (gameLong.mainline.take 40) ++ ["1-0"]).length = 41 :=
  C1_long_game_row StrLib gameLong "1-0" (by rfl) (by simp [gameLong])

/-- C2: for every parsed game with exactly `N ≤ 40` half-moves, the
assembled row is the SAN strings of all `N` moves followed by the result
tag, with no padding, so the row has length `N + 1` (possibly under 41). -/
theorem C2_short_game_row (L : ChessLib) (g : PGNGame L.Move) (r : String) (N : Nat)
    (hres : lookupHeader g.headers "Result" = some r)
    (hlen : g.mainline.length = N) (hN : N ≤ 40) :
    gameRow L g = .ok (sanAll L L.init g.mainline ++ [r]) ∧
      (sanAll L L.init g.mainline ++ [r]).length = N + 1 := by
  have htake : g.mainline.take 40 = g.mainline := List.take_of_length_le (by omega)
  refine ⟨by rw [gameRow_eq L g r hres, htake], ?_⟩
  simp [sanAll_length, hlen]

/-- Witness for C2 on a concrete 3-move game. -/
theorem C2_short_game_row_witness :
    gameRow StrLib gameE4 = .ok (sanAll StrLib StrLib.init gameE4.mainline ++ ["1-0"]) ∧
      (sanAll StrLib StrLib.init gameE4.mainline ++ ["1-0"]).length = 3 + 1 :=
  C2_short_game_row StrLib gameE4 "1-0" 3 (by rfl) (by rfl) (by decide)

/-- C5: the last entry of every assembled row is exactly the game's declared
"Result" header value, verbatim, for each of the four possible values. -/
theorem C5_result_verbatim (L : ChessLib) (g : PGNGame L.Move) (r : String)
    (hres : lookupHeader g.headers "Result" = some r)
    (_hr : r = "1-0" ∨ r = "0-1" ∨ r = "1/2-1/2" ∨ r = "*") :
    gameRow L g = .ok (sanLoop L L.init [] g.mainline ++ [r]) ∧
      (sanLoop L L.init [] g.mainline ++ [r]).getLast? = some r := by
  exact ⟨by simp [gameRow, hres], List.getLast?_concat _⟩

/-- Witness for C5 on a concrete drawn game. -/
theorem C5_result_verbatim_witness :
    gameRow StrLib gameEmptyMoves =
        .ok (sanLoop StrLib StrLib.init [] gameEmptyMoves.mainline ++ ["1/2-1/2"]) ∧
      (sanLoop StrLib StrLib.init [] gameEmptyMoves.mainline ++ ["1/2-1/2"]).getLast? =
        some "1/2-1/2" :=
  C5_result_verbatim StrLib gameEmptyMoves "1/2-1/2" (by rfl) (Or.inr (Or.inr (Or.inl rfl)))

/-- C9: every assembled row is non-empty; a zero-move game yields the row
containing only its result tag, and in general the row has length between 1
and 41 with the result tag as its final element. -/
theorem C9_row_invariants (L : ChessLib) (g : PGNGame L.Move) (r : String)
    (hres : lookupHeader g.headers "Result" = some r) :
    ∃ row, gameRow L g = .ok row ∧ 1 ≤ row.length ∧ row.length ≤ 41 ∧
      row.getLast? = some r ∧ (g.mainline = [] → row = [r]) := by
  refine ⟨sanAll L L.init (g.mainline.take 40) ++ [r], gameRow_eq L g r hres, ?_, ?_, ?_, ?_⟩
  · simp
  · simp only [List.length_append, sanAll_length, List.length_take, List.length_singleton]
    omega
  · exact List.getLast?_concat _
  · intro h
    simp [h, sanAll]

/-- Witness for C9 on a concrete zero-move game. -/
theorem C9_row_invariants_witness :
    ∃ row, gameRow StrLib gameEmptyMoves = .ok row ∧ 1 ≤ row.length ∧ row.length ≤ 41 ∧
      row.getLast? = some "1/2-1/2" ∧ (gameEmptyMoves.mainline = [] → row = ["1/2-1/2"]) :=
  C9_row_invariants StrLib gameEmptyMoves "1/2-1/2" (by rfl)

/-- C10: the pipeline is deterministic — two runs on inputs with identical
file contents, parsed by the same parsing front end, assemble identical row
sequences and identical tables. -/
theorem C10_deterministic (L : ChessLib) (parseFile : String → List (PGNGame L.Move))
    (c1 c2 : String) (h : c1 = c2) :
    collectRows L (parseFile c1) = collectRows L (parseFile c2) ∧
      pgn_to_dataframe L (parseFile c1) = pgn_to_dataframe L (parseFile c2) := by
  subst h
  exact ⟨rfl, rfl⟩

/-- Witness for C10 on a concrete input. -/
theorem C10_deterministic_witness :
    collectRows StrLib ((fun _ => [gameE4]) "pgn contents") =
        collectRows StrLib ((fun _ => [gameE4]) "pgn contents") ∧
      pgn_to_dataframe StrLib ((fun _ => [gameE4]) "pgn contents") =
        pgn_to_dataframe StrLib ((fun _ => [gameE4]) "pgn contents") :=
  C10_deterministic StrLib (fun _ => [gameE4]) "pgn contents" "pgn contents" rfl

/-- C4: if any parsed game lacks a "Result" header, the unguarded
dictionary lookup raises, the error propagates uncaught, no row list is
produced and no output file is written. -/
theorem C4_missing_result_fatal (L : ChessLib) (g : PGNGame L.Move)
    (games : List (PGNGame L.Move))
    (hmem : g ∈ games) (hres : lookupHeader g.headers "Result" = none) :
    (∃ e, collectRows L games = .error e) ∧
      (pgn_to_dataframe L games).toOption = none ∧
      writtenFile L games = none := by
  rcases collectRows_error_of_mem L g hres games hmem with ⟨e, he⟩
  refine ⟨⟨e, he⟩, ?_, ?_⟩
  · simp [pgn_to_dataframe, he, Except.toOption]
  · simp [writtenFile, pgn_to_dataframe, he]

/-- Witness for C4 on a concrete game record without a "Result" tag. -/
theorem C4_missing_result_fatal_witness :
    (∃ e, collectRows StrLib [gameNoResult] = .error e) ∧
      (pgn_to_dataframe StrLib [gameNoResult]).toOption = none ∧
      writtenFile StrLib [gameNoResult] = none :=
  C4_missing_result_fatal StrLib gameNoResult [gameNoResult] (List.mem_singleton.mpr rfl)
    (by rfl)

theorem replaySan_sanFirst (L : ChessLib) (legal : L.Board → L.Move → Prop)
    (parseSan : L.Board → String → Option L.Move)
    (hfaith : ∀ b m, legal b m → parseSan b (L.san b m) = some m)
    (ms : List L.Move) :
    ∀ (b : L.Board) (n : Nat), lineLegal L legal b ms →
      replaySan L parseSan b (sanFirst L b n ms) = some (ms.take n) := by
  induction ms with
  | nil => intro b n _; cases n <;> rfl
  | cons m ms ih =>
    intro b n hleg
    obtain ⟨hm, hrest⟩ : legal b m ∧ lineLegal L legal (L.push b m) ms := hleg
    cases n with
    | zero => simp [sanFirst_zero, replaySan]
    | succ k =>
      simp only [sanFirst, replaySan, hfaith b m hm, ih (L.push b m) k hrest]
      rfl

/-- C6: when SAN parsing inverts SAN rendering on legal moves, replaying
the rendered string sequence of a legal game from the starting board
recovers exactly the original move sequence truncated to 40 plies. -/
theorem C6_san_roundtrip (L : ChessLib) (legal : L.Board → L.Move → Prop)
    (parseSan : L.Board → String → Option L.Move)
    (hfaith : ∀ b m, legal b m → parseSan b (L.san b m) = some m)
    (g : PGNGame L.Move) (hleg : lineLegal L legal L.init g.mainline) :
    replaySan L parseSan L.init (sanLoop L L.init [] g.mainline) =
      some (g.mainline.take 40) := by
  rw [sanLoop_nil, ← sanFirst_eq_take]
  exact replaySan_sanFirst L legal parseSan hfaith g.mainline L.init 40 hleg

/-- Witness for C6 on a concrete game under a library whose moves render as
themselves. -/
theorem C6_san_roundtrip_witness :
    replaySan StrLib (fun _ s => some s) StrLib.init
        (sanLoop StrLib StrLib.init [] gameE4.mainline) =
      some (gameE4.mainline.take 40) :=
  C6_san_roundtrip StrLib (fun _ _ => True) (fun _ s => some s)
    (fun _ _ _ => rfl) gameE4 (by simp [gameE4, lineLegal])

/-- C7: on an input with zero games the table has zero data rows and the
fixed 41-column header, and the written file is the header row alone. -/
theorem C7_zero_games (L : ChessLib) :
    pgn_to_dataframe L [] = .ok ⟨column_names, []⟩ ∧
      column_names.length = 41 ∧
      column_names =
        ["Ply 1", "Ply 2", "Ply 3", "Ply 4", "Ply 5", "Ply 6", "Ply 7", "Ply 8",
         "Ply 9", "Ply 10", "Ply 11", "Ply 12", "Ply 13", "Ply 14", "Ply 15",
         "Ply 16", "Ply 17", "Ply 18", "Ply 19", "Ply 20", "Ply 21", "Ply 22",
         "Ply 23", "Ply 24", "Ply 25", "Ply 26", "Ply 27", "Ply 28", "Ply 29",
         "Ply 30", "Ply 31", "Ply 32", "Ply 33", "Ply 34", "Ply 35", "Ply 36",
         "Ply 37", "Ply 38", "Ply 39", "Ply 40", "Result"] ∧
      writtenFile L [] = some ("data.csv", [joinComma column_names]) := by
  exact ⟨rfl, by decide, by decide, rfl⟩

/-- C3: the code crashes on this input instead of writing the specified
file.  On the one-game input `e4 e5 Nf3` with result `1-0` the row loop
does assemble the row `["e4", "e5", "Nf3", "1-0"]`, but the DataFrame
constructor receives a maximal row length of 4 for its 41 column names,
raises, and no output file is written at all — the specified data row
`e4,e5,Nf3,1-0` never reaches the file. -/
theorem C3_end_to_end_crash :
    collectRows StrLib [gameE4] = .ok [["e4", "e5", "Nf3", "1-0"]] ∧
      pgn_to_dataframe StrLib [gameE4] =
        .error "41 columns passed, passed data had 4 columns" ∧
      writtenFile StrLib [gameE4] = none := by
  exact ⟨rfl, rfl, rfl⟩

/-- C8 as stated is false: on the one-game input `e4 e5 Nf3` / `1-0` the
program writes no file at all, rather than a `data.csv` with one data row
for the one parsed game. -/
theorem C8_counterexample :
    writtenFile StrLib [gameE4] = none ∧ [gameE4].length = 1 :=
  ⟨rfl, rfl⟩

/-- C8 (amended): whenever the pipeline succeeds, the program writes the
comma-separated file `data.csv` with no index column, its first line the
fixed header, followed by exactly one data row per parsed game, in input
order (short rows padded with NaN cells to the table width). -/
theorem C8_output_file (L : ChessLib) (games : List (PGNGame L.Move)) (df : DataFrame)
    (h : pgn_to_dataframe L games = .ok df) :
    writtenFile L games = some ("data.csv", csvLines df) ∧
      csvLines df = joinComma column_names ::
        df.rows.map (fun r => joinComma (r.map renderCell)) ∧
      df.rows.length = games.length ∧
      ∃ rs, collectRows L games = .ok rs ∧ rs.length = games.length ∧
        df.rows = rs.map (padRow (maxRowLen rs)) := by
  cases hc : collectRows L games with
  | error e =>
    rw [pgn_to_dataframe, hc] at h
    cases h
  | ok rs =>
    rw [pgn_to_dataframe, hc] at h
    obtain ⟨hcols, hrows⟩ := mkDataFrame_ok rs column_names df h
    have hlen : rs.length = games.length := collectRows_ok_length L games rs hc
    refine ⟨?_, ?_, ?_, rs, rfl, hlen, hrows⟩
    · rw [writtenFile, pgn_to_dataframe, hc, h]
    · rw [csvLines, hcols]
    · rw [hrows, List.length_map, hlen]

/-- The DataFrame built from the concrete 41-move input. -/
def dfLong : DataFrame :=
  ⟨column_names, [padRow 41 (List.replicate 40 "a" ++ ["1-0"])]⟩

/-- Witness for C8 on a concrete input whose single game fills all 40 ply
columns. -/
theorem C8_output_file_witness :
    writtenFile StrLib [gameLong] = some ("data.csv", csvLines dfLong) ∧
      csvLines dfLong = joinComma column_names ::
        dfLong.rows.map (fun r => joinComma (r.map renderCell)) ∧
      dfLong.rows.length = [gameLong].length ∧
      ∃ rs, collectRows StrLib [gameLong] = .ok rs ∧ rs.length = [gameLong].length ∧
        dfLong.rows = rs.map (padRow (maxRowLen rs)) :=
  C8_output_file StrLib [gameLong] dfLong (by rfl)

end ChessPrediction
